import Mathlib

/-!
# Verification of the `Option<T>` container (src/src/option/option.ts)

Shallow embedding of the `_Option` class and the parts of its collaborators
that its combinators touch.  Mutable state (`this.#value`, `this[phantom]`)
is modelled by explicit state passing: a mutating method becomes a function
`Opt T → result × Opt T`.  Code that can throw returns `Except Thrown _`;
code that swallows callback failures returns a plain value.  Callbacks that
may throw are modelled as functions into `Except Thrown _`.
-/

namespace Anythrow

/-- Reason codes of the error taxonomy (`enum OptionError` in the source). -/
inductive OptionError where
  | NoneValueAccessed
  | NoneExpected
  | NoneUnwrapped
  | PredicateException
deriving DecidableEq, Repr

/-- Thrown JavaScript values, as far as the embedded methods distinguish
them.  The taxonomy error type `AnyError` (external collaborator, spec §2)
carries a message, a reason code and an optional original cause; `jsError`
is any other `Error` instance (identified by its message); `other` is a
thrown non-`Error` value (identified by its stringification). -/
inductive Thrown where
  | anyError (msg : String) (reason : OptionError) (cause : Option Thrown)
  | jsError (msg : String)
  | other (repr : String)
deriving Repr

/-- Guard `x instanceof Error`: `AnyError` extends `Error`; a non-`Error` thrown
value is not an `Error`. -/
def Thrown.instanceofError : Thrown → Bool
  | .anyError _ _ _ => true
  | .jsError _ => true
  | .other _ => false

/-- Helper `stringify(x)` from the generic helpers, restricted to thrown values:
yields the description string the model identifies the value by. -/
def Thrown.stringify : Thrown → String
  | .anyError m _ _ => m
  | .jsError m => m
  | .other r => r

/-- Helper `mkAnyError(msg, reason, e)` (option.ts line 838):
`new AnyError(msg, reason, e instanceof Error ? e : new Error(stringify(e)))`. -/
def mkAnyError (msg : String) (reason : OptionError) (e : Thrown) : Thrown :=
  .anyError msg reason
    (Option.some (if e.instanceofError then e else .jsError e.stringify))

/-- The `_Option<T>` instance state: the `[phantom]` discriminant field
(holding the string `"some"` or `"none"`) and the private slot `#value`.
The slot holds either a `T` or the module-private `nothing` marker, which is
distinct from every `T`; we model `T | Nothing` as `Option T`, with
`Option.none` standing for the `nothing` sentinel. -/
structure Opt (T : Type) where
  phantom : String
  value : Option T
deriving DecidableEq, Repr

variable {T U V E W : Type}

/-- Guard `isNothing(x)`: `x === nothing`. -/
def isNothing (x : Option T) : Bool := x.isNone

/-- Method `#setValue(value)`: writes the discriminant and the slot together:
`this[phantom] = isNothing(value) ? "none" : "some"; this.#value = value`. -/
def setValue (_o : Opt T) (value : Option T) : Opt T :=
  { phantom := if isNothing value then "none" else "some", value := value }

/-- The `value` getter: throws `AnyError(NoneValueAccessed)` when the slot
holds the `nothing` marker, otherwise returns the slot's content. -/
def getValue (o : Opt T) : Except Thrown T :=
  if h : isNothing o.value then
    .error (.anyError "`value` is accessed on `None`"
      .NoneValueAccessed Option.none)
  else
    .ok (o.value.get (by simpa [isNothing, Option.isSome_iff_ne_none,
      Option.isNone_iff_eq_none] using h))

/-- The private constructor with an argument, i.e. `_Option.some` /
the exported `some(value)`: starts from the field initialisers
(`phantom = "none"`, `#value = nothing`) and runs `#setValue(value)`. -/
def some (value : T) : Opt T :=
  setValue { phantom := "none", value := Option.none } (Option.some value)

/-- The private constructor without argument, i.e. `_Option.none` /
the exported `none()`: the field initialisers untouched. -/
def none : Opt T := { phantom := "none", value := Option.none }

/-- Method `isNone()`: `this.#value === nothing`. -/
def isNone (o : Opt T) : Bool := o.value.isNone

/-- Method `isSome()`: `!this.isNone()`. -/
def isSome (o : Opt T) : Bool := !isNone o

/-- A caller-supplied callback: may throw. -/
abbrev Cb (T U : Type) := T → Except Thrown U

/-- Method `inspect(f)` (lines 986–996): when occupied, runs `f` on the contained
value inside a `try` whose failure is discarded with no output change; then
returns `some(this.value)` — note this final read of the `value` getter is
unconditional, outside the `isSome` guard. -/
def inspect (o : Opt T) (f : Cb T Unit) : Except Thrown (Opt T) :=
  -- the guarded fire-and-forget call; its outcome is dropped
  let _ := if isSome o then (getValue o >>= f).toOption else Option.none
  match getValue o with
  | .ok v => .ok (some v)
  | .error e => .error e

/-- Method `isNoneOr(f)` (lines 1002–1012): `true` when empty; otherwise
`try { return f(this.value); } catch { return false; }`. -/
def isNoneOr (o : Opt T) (f : Cb T Bool) : Bool :=
  if isNone o then true
  else
    match getValue o >>= f with
    | .ok b => b
    | .error _ => false

/-- Method `isSomeAnd(f)` (lines 1018–1028), exactly as written in the source:
`if (this.isSome()) return true;`
`try { return f(this.value); } catch { return false; }`
(when empty, the `value` getter throws inside the `try`, so the `catch`
returns `false` without invoking `f`). -/
def isSomeAnd (o : Opt T) (f : Cb T Bool) : Bool :=
  if isSome o then true
  else
    match getValue o >>= f with
    | .ok b => b
    | .error _ => false

/-- Method `map(f)` (lines 1030–1040): empty maps to empty; otherwise
`try { return some(f(this.value)); } catch { return none(); }`. -/
def map (o : Opt T) (f : Cb T U) : Opt U :=
  if isNone o then none
  else
    match getValue o >>= f with
    | .ok u => some u
    | .error _ => none

/-- Method `filter(f)` (lines 932–942): empty maps to empty; otherwise
`try { return f(this.value) ? some(this.value) : none(); } catch { return none(); }`. -/
def filter (o : Opt T) (f : Cb T Bool) : Opt T :=
  if isNone o then none
  else
    match (do
        let b ← getValue o >>= f
        if b then do
          let v ← getValue o
          pure (some v)
        else
          pure none : Except Thrown (Opt T)) with
    | .ok r => r
    | .error _ => none

/-- Method `andThen(f)` (lines 902–915), synchronous path: empty maps to empty;
otherwise `try { return f(this.value); } catch { return none(); }` (the
`isPromise` branch belongs to the async sibling and is outside this
synchronous model). -/
def andThen (o : Opt T) (f : Cb T (Opt U)) : Opt U :=
  if isNone o then none
  else
    match getValue o >>= f with
    | .ok r => r
    | .error _ => none

/-- Method `clone()` (lines 917–919): `this.isNone() ? none() : some(this.value)`.
The `value` getter is read only under the occupied guard, where it cannot
throw, so the model reads the slot directly. -/
def clone (o : Opt T) : Opt T :=
  match o.value with
  | Option.none => none
  | Option.some v => some v

/-- Method `unwrap()` (lines 1194–1203): the contained value when occupied,
otherwise throws `AnyError(NoneUnwrapped)`. -/
def unwrap (o : Opt T) : Except Thrown T :=
  if isSome o then getValue o
  else
    .error (.anyError "`unwrap` is called on `None`"
      .NoneUnwrapped Option.none)

/-- Method `insert(x)` (lines 980–984): `this.#setValue(x); return this.value;`. -/
def insert (o : Opt T) (x : T) : Except Thrown T × Opt T :=
  let o' := setValue o (Option.some x)
  (getValue o', o')

/-- Method `getOrInsert(x)` (lines 956–962): writes `x` only when empty, then
returns `this.value`. -/
def getOrInsert (o : Opt T) (x : T) : Except Thrown T × Opt T :=
  let o' := if isNone o then setValue o (Option.some x) else o
  (getValue o', o')

/-- Method `getOrInsertWith(f)` (lines 964–978): when empty, runs
`this.#setValue(f())` inside a `try`; a throw of `f` happens before the
write, is wrapped by `mkAnyError(..., PredicateException, e)` and rethrown;
then returns `this.value`. -/
def getOrInsertWith (o : Opt T) (f : Cb Unit T) : Except Thrown T × Opt T :=
  if isNone o then
    match f () with
    | .ok v =>
      let o' := setValue o (Option.some v)
      (getValue o', o')
    | .error e =>
      (.error (mkAnyError "getOrInsertWith callback threw an exception"
        .PredicateException e), o)
  else (getValue o, o)

/-- Method `#replaceValue(newValue)` (lines 1256–1260): returns the old slot
content and writes the new one through `#setValue`. -/
def replaceValue (o : Opt T) (newValue : Option T) : Option T × Opt T :=
  (o.value, setValue o newValue)

/-- Method `#takeValue()` (lines 1267–1269): `#replaceValue(nothing)`. -/
def takeValue (o : Opt T) : Option T × Opt T := replaceValue o Option.none

/-- Method `replace(x)` (lines 1124–1138), synchronous path: replaces the slot and
wraps the prior content as `none()`/`some(value)`. -/
def replace (o : Opt T) (x : T) : Opt T × Opt T :=
  let p := replaceValue o (Option.some x)
  (match p.1 with
   | Option.none => none
   | Option.some v => some v, p.2)

/-- Method `take()` (lines 1140–1147): no-op returning empty when empty; otherwise
empties the slot and wraps the prior content. -/
def take (o : Opt T) : Opt T × Opt T :=
  if isNone o then (none, o)
  else
    let p := takeValue o
    (match p.1 with
     | Option.none => none
     | Option.some v => some v, p.2)

/-- Method `takeIf(f)` (lines 1149–1164): empty is a no-op returning empty;
otherwise the `try` block reads the value, applies `f`, and only on `true`
takes the slot; a `false` result or a throw leaves the slot unchanged and
returns empty. -/
def takeIf (o : Opt T) (f : Cb T Bool) : Opt T × Opt T :=
  if isNone o then (none, o)
  else
    match getValue o >>= f with
    | .ok true =>
      let p := takeValue o
      (match p.1 with
       | Option.none => none
       | Option.some v => some v, p.2)
    | .ok false => (none, o)
    | .error _ => (none, o)

/-- Result of the deferred variant `replace(x: Promise<T>)`
(lines 1124–1138): the immediate snapshot `this.clone()`, the live state
right after the call (`x.then(...)` only registers a continuation — no
synchronous write happens), and the trigger: the registered continuation as
a state transformer indexed by the settlement outcome (`Except Unit T`:
`.ok v` for resolution with `v`, `.error ()` for rejection). -/
structure Deferred (T : Type) where
  snapshot : Opt T
  post : Opt T
  trigger : Except Unit T → Opt T → Opt T

/-- The deferred path of `replace`:
`const promise = x.then((val) => { this.#setValue(val); }, noop);`
`return [this.clone(), promise];`. -/
def replaceAsync (o : Opt T) : Deferred T :=
  { snapshot := clone o
    post := o
    trigger := fun outcome s =>
      match outcome with
      | .ok v => setValue s (Option.some v)
      | .error _ => s }

/-- The `Result` collaborator (external, spec §6): sum type `Ok(v)`/`Err(e)`
with accessors `isOk()`, `.value`, `.error`. -/
inductive ResultT (V E : Type) where
  | ok (v : V)
  | err (e : E)
deriving DecidableEq, Repr

/-- Runtime domain of `transposeResult`'s contained value: at runtime the
slot may hold a `Result` or — when callers defeat the type constraint — any
other value; `isResult` (the guard from the generic helpers) recognises the
former. -/
inductive ResLike (V E W : Type) where
  | res (r : ResultT V E)
  | nonRes (w : W)
deriving DecidableEq, Repr

/-- Guard `isResult(x)`, on the `ResLike` domain. -/
def isResult : ResLike V E W → Bool
  | .res _ => true
  | .nonRes _ => false

/-- Method `transposeResult()` (lines 1174–1182):
`if (this.isNone() || !isResult(this.value)) return ok(none());`
`return this.value.isOk() ? ok(some(this.value.value)) : err(this.value.error);`
(`this.value` is read only after the empty case is excluded, where the
getter cannot throw). -/
def transposeResult (o : Opt (ResLike V E W)) : ResultT (Opt V) E :=
  match o.value with
  | Option.none => .ok none
  | Option.some x =>
    match x with
    | .nonRes _ => .ok none
    | .res (.ok v) => .ok (some v)
    | .res (.err e) => .err e

/-- A sample of JavaScript runtime values, used to exercise the
constructors on the null-like values the spec singles out. -/
inductive JsValue where
  | nullV
  | undefinedV
  | num (n : Int)
  | str (s : String)
deriving DecidableEq, Repr

/-- Phantom/slot coherence: the discriminant string is `"some"` exactly
when the slot holds a value distinct from the `nothing` marker. -/
def Inv (o : Opt T) : Prop := o.phantom = "some" ↔ o.value.isSome = true

instance (o : Opt T) : Decidable (Inv o) :=
  inferInstanceAs (Decidable (_ ↔ _))

/-! ## Basic evaluation lemmas -/

/-- Helper: the `value` getter on an occupied slot returns its content. -/
theorem getValue_some (ph : String) (v : T) :
    getValue (⟨ph, Option.some v⟩ : Opt T) = .ok v := rfl

/-- Helper: the `value` getter on an empty slot throws `NoneValueAccessed`. -/
theorem getValue_none (ph : String) :
    getValue (⟨ph, Option.none⟩ : Opt T) =
      .error (.anyError "`value` is accessed on `None`"
        .NoneValueAccessed Option.none) := rfl

/-- Helper: `isNone` on an occupied slot. -/
theorem isNone_mk_some (ph : String) (v : T) :
    isNone (⟨ph, Option.some v⟩ : Opt T) = false := rfl

/-- Helper: `isNone` on an empty slot. -/
theorem isNone_mk_none (ph : String) :
    isNone (⟨ph, Option.none⟩ : Opt T) = true := rfl

/-- Helper: bind on a successful `Except` computation. -/
theorem ok_bind {A B : Type} (a : A) (f : A → Except Thrown B) :
    (Except.ok a >>= f : Except Thrown B) = f a := rfl

/-- Helper: bind on a thrown `Except` computation. -/
theorem error_bind {A B : Type} (e : Thrown) (f : A → Except Thrown B) :
    (Except.error e >>= f : Except Thrown B) = .error e := rfl

/-- Helper: the `value` getter, given only that the slot is occupied. -/
theorem getValue_eq_ok (o : Opt T) (v : T) (hv : o.value = Option.some v) :
    getValue o = .ok v := by
  obtain ⟨ph, val⟩ := o
  cases val with
  | none => exact absurd hv (by simp)
  | some w =>
    have hwv : w = v := by simpa using hv
    subst hwv
    exact getValue_some ph w

/-- Helper: `isNone`, given only that the slot is occupied. -/
theorem isNone_eq_false (o : Opt T) (v : T) (hv : o.value = Option.some v) :
    isNone o = false := by
  simp [isNone, hv]

/-- Helper: `setValue` always writes a coherent phantom/slot pair. -/
theorem Inv_setValue (o : Opt T) (w : Option T) : Inv (setValue o w) := by
  cases w with
  | none =>
    exact iff_of_false (show ¬("none" = "some") by decide)
      (show ¬(false = true) by decide)
  | some v => exact iff_of_true rfl rfl

/-! ## Claim theorems -/

/-- C1: the claim fails on the code.  `inspect` ends with an unconditional
`return some(this.value)`, so on an empty Option the `value` getter throws
`AnyError(NoneValueAccessed)` and that exception propagates to the caller,
instead of the claimed empty result (the method's own doc example expects
`none().inspect(f)` to equal `none()`).  On an occupied Option the claimed
behavior does hold: the callback's failure is fully discarded and a fresh
occupied Option with the same value is returned. -/
theorem inspect_none_violation :
    inspect (none : Opt Nat) (fun _ => .ok ()) =
      .error (.anyError "`value` is accessed on `None`"
        .NoneValueAccessed Option.none) ∧
    inspect (some (2 : Nat)) (fun _ => .error (.jsError "boom")) =
      .ok (some 2) :=
  ⟨rfl, rfl⟩

/-- C2: the claim fails on the code.  `isSomeAnd` returns `true` as soon as
the Option is occupied, without ever invoking the predicate: on `some 2`
with the predicate `n < 0` — which yields `false` at `2` — the method still
returns `true` (its own doc example expects `false`).  On an empty Option
it does return `false`: the `value` getter throws inside the `try` and the
`catch` answers `false`, again without invoking the predicate. -/
theorem isSomeAnd_ignores_predicate :
    ((fun n => (.ok (decide (n < 0)) : Except Thrown Bool)) (2 : Nat) =
      .ok false) ∧
    isSomeAnd (some (2 : Nat)) (fun n => .ok (decide (n < 0))) = true ∧
    isSomeAnd (none : Opt Nat) (fun _ => .ok true) = false :=
  ⟨rfl, rfl, rfl⟩

/-- C3 counterexample: on an occupied Option whose predicate throws,
`isNoneOr` returns `false`, not `true` as the claim states — the `catch`
branch of the source returns `false`, and the method's own doc example
agrees. -/
theorem isNoneOr_throw_cex :
    isNoneOr (some (2 : Nat)) (fun _ => .error (.jsError "boom")) = false ∧
    isNoneOr (some (2 : Nat)) (fun _ => .error (.jsError "boom")) ≠ true :=
  ⟨rfl, by decide⟩

/-- C3 (amended): `isNoneOr(f)` returns `true` on every empty Option; on an
occupied Option it returns the predicate's result, and returns `false` —
not `true` — when the predicate throws, rather than propagating. -/
theorem isNoneOr_spec (ph : String) (v : T) (f : Cb T Bool) :
    isNoneOr (⟨ph, Option.none⟩ : Opt T) f = true ∧
    isNoneOr (⟨ph, Option.some v⟩ : Opt T) f =
      (match f v with
       | .ok b => b
       | .error _ => false) := by
  refine ⟨rfl, ?_⟩
  cases hf : f v with
  | ok b => simp [isNoneOr, isNone_mk_some, getValue_some, ok_bind, hf]
  | error e => simp [isNoneOr, isNone_mk_some, getValue_some, ok_bind, hf]

/-- C4 counterexample: on an occupied Option whose contained value is not a
Result, `transposeResult` returns `Ok(empty)` — not `Ok(occupied(value))`
as the claim's defensive-fallback leg states. -/
theorem transposeResult_fallback_cex :
    transposeResult
        (some (ResLike.nonRes "x") : Opt (ResLike String String String)) =
      .ok none ∧
    transposeResult
        (some (ResLike.nonRes "x") : Opt (ResLike String String String)) ≠
      .ok (some "x") :=
  ⟨rfl, by decide⟩

/-- C4 (amended): `transposeResult()` maps an empty Option to `Ok(empty)`;
an occupied Option containing `Ok(v)` to `Ok(occupied(v))`; an occupied
Option containing `Err(e)` to `Err(e)`; and an occupied Option whose
contained value is not a Result (defensive fallback) to `Ok(empty)`. -/
theorem transposeResult_spec (ph : String) (v : V) (e : E) (w : W) :
    transposeResult (⟨ph, Option.none⟩ : Opt (ResLike V E W)) = .ok none ∧
    transposeResult
        (⟨ph, Option.some (ResLike.res (.ok v))⟩ : Opt (ResLike V E W)) =
      .ok (some v) ∧
    transposeResult
        (⟨ph, Option.some (ResLike.res (.err e))⟩ : Opt (ResLike V E W)) =
      .err e ∧
    transposeResult
        (⟨ph, Option.some (ResLike.nonRes w)⟩ : Opt (ResLike V E W)) =
      .ok none :=
  ⟨rfl, rfl, rfl, rfl⟩

/-- C5 counterexample: when the callback of `getOrInsertWith` throws a value
that is already a taxonomy error (here `AnyError` with reason
`NoneUnwrapped`), the method does not rethrow it unmodified as the claim
states: it wraps it in a fresh `AnyError` with reason `PredicateException`
and the original attached as cause — the source has no
`instanceof AnyError` passthrough in this method. -/
theorem getOrInsertWith_double_wrap_cex :
    (getOrInsertWith (none : Opt Nat)
        (fun _ => .error (.anyError "boom" .NoneUnwrapped Option.none))).1 =
      .error (.anyError "getOrInsertWith callback threw an exception"
        .PredicateException
        (Option.some (.anyError "boom" .NoneUnwrapped Option.none))) ∧
    (getOrInsertWith (none : Opt Nat)
        (fun _ => .error (.anyError "boom" .NoneUnwrapped Option.none))).1 ≠
      .error (.anyError "boom" .NoneUnwrapped Option.none) := by
  refine ⟨rfl, fun h => ?_⟩
  rw [show (getOrInsertWith (none : Opt Nat)
      (fun _ => .error (.anyError "boom" .NoneUnwrapped Option.none))).1 =
      .error (.anyError "getOrInsertWith callback threw an exception"
        .PredicateException
        (Option.some (.anyError "boom" .NoneUnwrapped Option.none)))
    from rfl] at h
  injection h with h1
  injection h1 with hm hr hc
  exact absurd hr (by decide)

/-- C5 (amended): `getOrInsertWith(f)` on an empty Option, when `f` throws:
the slot is left untouched (still empty) and the failure is wrapped with a
`PredicateException` reason and the original failure attached as cause,
then rethrown — always, even when the thrown value is already a taxonomy
error (there is no unmodified rethrow in this method). -/
theorem getOrInsertWith_throw_spec (ph : String) (f : Cb Unit T) (e : Thrown)
    (hf : f () = .error e) :
    getOrInsertWith (⟨ph, Option.none⟩ : Opt T) f =
      (.error (mkAnyError "getOrInsertWith callback threw an exception"
        .PredicateException e), (⟨ph, Option.none⟩ : Opt T)) := by
  simp [getOrInsertWith, isNone_mk_none, hf]

/-- C5 witness: the amended theorem applied at a concrete empty Option and
a concrete throwing callback. -/
theorem getOrInsertWith_throw_spec_witness :
    getOrInsertWith (none : Opt Nat) (fun _ => .error (.jsError "boom")) =
      (.error (mkAnyError "getOrInsertWith callback threw an exception"
        .PredicateException (.jsError "boom")), (none : Opt Nat)) :=
  getOrInsertWith_throw_spec "none" _ (.jsError "boom") rfl

/-- C6: deferred `replace`.  The first element of the returned pair is the
snapshot `this.clone()` — an independent value copy of the slot taken at
call time, which later mutation of the live instance cannot change (in the
state-passing model the snapshot is a separate value and every mutation
produces a new state); the call itself performs no write, so the slot stays
at its pre-call state until the trigger settles; on success the trigger
performs exactly one full `#setValue` write of the resolved value — the
same write a synchronous `replace` performs, its return discarded — and on
failure it performs no write and leaves the state unchanged. -/
theorem replace_deferred_spec (o : Opt T) :
    (replaceAsync o).snapshot = clone o ∧
    (replaceAsync o).snapshot.value = o.value ∧
    (replaceAsync o).post = o ∧
    (∀ (v : T) (s : Opt T),
      (replaceAsync o).trigger (.ok v) s = (replace s v).2 ∧
      ((replaceAsync o).trigger (.ok v) s).phantom = "some" ∧
      ((replaceAsync o).trigger (.ok v) s).value = Option.some v) ∧
    (∀ s : Opt T, (replaceAsync o).trigger (.error ()) s = s) := by
  refine ⟨rfl, ?_, rfl, fun v s => ⟨rfl, rfl, rfl⟩, fun s => rfl⟩
  cases h : o.value <;>
    simp [replaceAsync, clone, h, some, none, setValue, isNothing]

/-- C7: for `map`, `filter` and `andThen`, whenever the supplied callback
throws on the contained value — whatever value it throws — the result is
the empty Option; no exception reaches the caller (the embedded methods
return a plain `Opt`, not an `Except`). -/
theorem map_filter_andThen_swallow (o : Opt T) (v : T)
    (f : Cb T U) (g : Cb T Bool) (k : Cb T (Opt V))
    (e₁ e₂ e₃ : Thrown)
    (hv : o.value = Option.some v)
    (hf : f v = .error e₁) (hg : g v = .error e₂) (hk : k v = .error e₃) :
    map o f = none ∧ filter o g = none ∧ andThen o k = none := by
  have hno : isNone o = false := isNone_eq_false o v hv
  have hgv : getValue o = .ok v := getValue_eq_ok o v hv
  refine ⟨?_, ?_, ?_⟩ <;>
    simp [map, filter, andThen, hno, hgv, ok_bind, error_bind, hf, hg, hk]

/-- C7 witness: the theorem applied at `some 2` with concrete throwing
callbacks. -/
theorem map_filter_andThen_swallow_witness :
    map (some (2 : Nat)) (fun _ => (.error (.jsError "b") : Except Thrown Nat)) =
      none ∧
    filter (some (2 : Nat)) (fun _ => .error (.jsError "b")) = none ∧
    andThen (some (2 : Nat))
      (fun _ => (.error (.jsError "b") : Except Thrown (Opt Nat))) = none :=
  map_filter_andThen_swallow (some 2) 2 _ _ _
    (.jsError "b") (.jsError "b") (.jsError "b") rfl rfl rfl rfl

/-- C8: for every value `v` — the null-like JavaScript values included —
the occupied constructor yields an Option that reports occupied
(`isSome()` true, `isNone()` false) and whose `unwrap()` returns exactly
`v` without throwing. -/
theorem some_occupied_spec :
    (∀ (A : Type) (v : A),
      isSome (some v) = true ∧ isNone (some v) = false ∧
        unwrap (some v) = .ok v) ∧
    unwrap (some JsValue.nullV) = .ok JsValue.nullV ∧
    unwrap (some JsValue.undefinedV) = .ok JsValue.undefinedV :=
  ⟨fun _ _ => ⟨rfl, rfl, rfl⟩, rfl, rfl⟩

/-- C9: `takeIf(f)` on an empty Option returns empty and leaves the state
unchanged for every callback (so without consulting `f`); on an occupied
Option it empties the slot — a full `#setValue` write — exactly when the
predicate returns `true`, returning the previously held value as a new
occupied Option, and on a `false` result or a throw it returns empty with
the slot left unchanged. -/
theorem takeIf_spec (ph : String) (v : T) (f : Cb T Bool) :
    takeIf (⟨ph, Option.none⟩ : Opt T) f = (none, (⟨ph, Option.none⟩ : Opt T)) ∧
    takeIf (⟨ph, Option.some v⟩ : Opt T) f =
      (match f v with
       | .ok true => (some v, (none : Opt T))
       | .ok false => (none, (⟨ph, Option.some v⟩ : Opt T))
       | .error _ => (none, (⟨ph, Option.some v⟩ : Opt T))) := by
  refine ⟨rfl, ?_⟩
  cases hf : f v with
  | ok b =>
    cases b <;>
      simp [takeIf, isNone_mk_some, getValue_some, ok_bind, hf,
        takeValue, replaceValue, setValue, isNothing, some, none]
  | error e =>
    simp [takeIf, isNone_mk_some, getValue_some, ok_bind, hf]

/-- C10: phantom/slot coherence.  Both constructors establish the
invariant that the discriminant field equals `"some"` exactly when the slot
holds a value distinct from the empty marker; `#setValue` — the single
internal write step all mutations go through — establishes it
unconditionally; and every mutating operation (`insert`, `getOrInsert`,
`getOrInsertWith`, `replace`, `take`, `takeIf`, and the deferred-replace
trigger) preserves it. -/
theorem phantom_slot_coherence :
    (∀ (A : Type) (v : A), Inv (some v)) ∧
    (∀ A : Type, Inv (none : Opt A)) ∧
    (∀ (A : Type) (o : Opt A) (w : Option A), Inv (setValue o w)) ∧
    (∀ (A : Type) (o : Opt A) (x : A), Inv o → Inv (insert o x).2) ∧
    (∀ (A : Type) (o : Opt A) (x : A), Inv o → Inv (getOrInsert o x).2) ∧
    (∀ (A : Type) (o : Opt A) (f : Cb Unit A),
      Inv o → Inv (getOrInsertWith o f).2) ∧
    (∀ (A : Type) (o : Opt A) (x : A), Inv o → Inv (replace o x).2) ∧
    (∀ (A : Type) (o : Opt A), Inv o → Inv (take o).2) ∧
    (∀ (A : Type) (o : Opt A) (f : Cb A Bool), Inv o → Inv (takeIf o f).2) ∧
    (∀ (A : Type) (o : Opt A) (outcome : Except Unit A) (s : Opt A),
      Inv s → Inv ((replaceAsync o).trigger outcome s)) := by
  refine ⟨fun A v => Inv_setValue _ _, fun A => ?_,
    fun A o w => Inv_setValue o w,
    fun A o x _ => Inv_setValue o (Option.some x),
    fun A o x h => ?_, fun A o f h => ?_,
    fun A o x _ => Inv_setValue o (Option.some x),
    fun A o h => ?_, fun A o f h => ?_,
    fun A o outcome s h => ?_⟩
  · exact iff_of_false (show ¬("none" = "some") by decide)
      (show ¬(false = true) by decide)
  · show Inv (if isNone o then setValue o (Option.some x) else o)
    split
    · exact Inv_setValue o _
    · exact h
  · unfold getOrInsertWith
    split
    · split
      · exact Inv_setValue o _
      · exact h
    · exact h
  · unfold take
    split
    · exact h
    · exact Inv_setValue o _
  · unfold takeIf
    split
    · exact h
    · split
      · exact Inv_setValue o _
      · exact h
      · exact h
  · cases outcome with
    | ok v => exact Inv_setValue s (Option.some v)
    | error e => exact h

/-- C10 witness: the invariant-preservation clauses applied at concrete
states and callbacks, their coherence hypotheses discharged by
computation. -/
theorem phantom_slot_coherence_witness :
    Inv ((insert (some (1 : Nat)) 2).2) ∧
    Inv ((getOrInsert (none : Opt Nat) 5).2) ∧
    Inv ((getOrInsertWith (none : Opt Nat) (fun _ => .ok 5)).2) ∧
    Inv ((replace (some (1 : Nat)) 2).2) ∧
    Inv ((take (some (1 : Nat))).2) ∧
    Inv ((takeIf (some (1 : Nat)) (fun _ => .ok true)).2) ∧
    Inv ((replaceAsync (some (1 : Nat))).trigger (.ok 5) (some 1)) :=
  ⟨phantom_slot_coherence.2.2.2.1 Nat (some 1) 2 (by decide),
   phantom_slot_coherence.2.2.2.2.1 Nat none 5 (by decide),
   phantom_slot_coherence.2.2.2.2.2.1 Nat none _ (by decide),
   phantom_slot_coherence.2.2.2.2.2.2.1 Nat (some 1) 2 (by decide),
   phantom_slot_coherence.2.2.2.2.2.2.2.1 Nat (some 1) (by decide),
   phantom_slot_coherence.2.2.2.2.2.2.2.2.1 Nat (some 1) _ (by decide),
   phantom_slot_coherence.2.2.2.2.2.2.2.2.2 Nat (some 1) (.ok 5) (some 1)
     (by decide)⟩

end Anythrow
